import Mathlib

/-!
Verification development for the JPEG 2000 box / codestream parsing core.

The repository's parser/model modules are not present in the source tree
(only the test suites are), so every definition below is modelled from the
specification document: the byte cursor (§4.1), the box codec (§4.2), the
codestream grammar (§4.4), the marker segment codec (§4.5), the ICC profile
decoder (§4.6), and the top-level document model (§2, §3).

Bytes are modelled as `List Nat` with every read taken modulo 256; all
multi-byte reads are big-endian, matching the wire convention.  Fallible
parsing returns `Except`/`Option`; recursive parsers take explicit fuel so
that everything stays executable and kernel-reducible.
-/

/-- Modelled from the spec: Byte Cursor (§4.1), single byte read.
The repository's buffered-reader module is missing from the source tree. -/
def readU8 (data : List Nat) (i : Nat) : Option Nat :=
  (data[i]?).map (· % 256)

/-- Modelled from the spec: Byte Cursor (§4.1), 2-byte big-endian read. -/
def readU16 (data : List Nat) (i : Nat) : Option Nat :=
  match readU8 data i, readU8 data (i + 1) with
  | some a, some b => some (a * 256 + b)
  | _, _ => none

/-- Modelled from the spec: Byte Cursor (§4.1), 4-byte big-endian read. -/
def readU32 (data : List Nat) (i : Nat) : Option Nat :=
  match readU16 data i, readU16 data (i + 2) with
  | some a, some b => some (a * 65536 + b)
  | _, _ => none

/-- Modelled from the spec: Byte Cursor (§4.1), 8-byte big-endian read. -/
def readU64 (data : List Nat) (i : Nat) : Option Nat :=
  match readU32 data i, readU32 data (i + 4) with
  | some a, some b => some (a * 4294967296 + b)
  | _, _ => none

/-- Symbolic marker identities for the closed set of marker segment
variants (§3), with an `unknown` variant carrying the raw 2-byte value. -/
inductive MarkerId where
  | soc | siz | cod | coc | tlm | plt | qcd | qcc | rgn | pod
  | ppm | ppt | crg | cme | sot | sop | eph | sod | eoc
  | unknown (v : Nat)
deriving DecidableEq, Repr

/-- Modelled from the spec: the known marker table of the Marker Segment
Codec (§2, §4.5) for length-prefixed markers. -/
def markerIdOf (v : Nat) : MarkerId :=
  if v = 0xFF51 then .siz
  else if v = 0xFF52 then .cod
  else if v = 0xFF53 then .coc
  else if v = 0xFF55 then .tlm
  else if v = 0xFF58 then .plt
  else if v = 0xFF5C then .qcd
  else if v = 0xFF5D then .qcc
  else if v = 0xFF5E then .rgn
  else if v = 0xFF5F then .pod
  else if v = 0xFF60 then .ppm
  else if v = 0xFF61 then .ppt
  else if v = 0xFF63 then .crg
  else if v = 0xFF64 then .cme
  else if v = 0xFF91 then .sop
  else .unknown v

/-- Typed COD parameter block (§4.5): style byte, SGcod fields, SPcod
fields and the decoded precinct-size list. -/
structure CodParams where
  scod : Nat
  progOrder : Nat
  layers : Nat
  mct : Nat
  numRes : Nat
  cblkWidth : Nat
  cblkHeight : Nat
  cblkStyle : Nat
  xform : Nat
  precinctSize : List (Nat × Nat)
deriving DecidableEq, Repr

/-- Modelled from the spec: COD marker-segment body decoding (§4.5).
Layout after the 2-byte length field: Scod byte, progression order, 2-byte
layer count, multi-component-transform flag, resolution-level count,
code-block width/height exponents, code-block style, wavelet kernel id,
then an optional trailing array of nibble-packed precinct-size bytes that
is present only when the style byte's explicit-precincts bit (bit 0) is
set; its absence implies the single implicit maximal precinct size
(2^15, 2^15). -/
def parseCOD (b : List Nat) : Option CodParams :=
  match readU8 b 0, readU8 b 1, readU16 b 2, readU8 b 4, readU8 b 5,
        readU8 b 6, readU8 b 7, readU8 b 8, readU8 b 9 with
  | some s, some po, some ly, some mc, some nr, some cw, some ch,
    some cs, some xf =>
    some { scod := s, progOrder := po, layers := ly, mct := mc,
           numRes := nr, cblkWidth := cw, cblkHeight := ch,
           cblkStyle := cs, xform := xf,
           precinctSize :=
             if s.testBit 0 then
               (List.range (nr + 1)).filterMap
                 (fun i => (readU8 b (10 + i)).map
                   (fun x => (2 ^ (x % 16), 2 ^ (x / 16))))
             else [(32768, 32768)] }
  | _, _, _, _, _, _, _, _, _ => none

/-- Variant-specific typed fields of a marker segment (§3); only the
fields the development reasons about are modelled, the rest are kept as a
generic body. -/
inductive SegBody where
  | empty
  | generic
  | sotBody (isot psot tpsot tnsot : Nat)
  | codBody (c : Option CodParams)
deriving DecidableEq, Repr

/-- A decoded marker segment (§3): symbolic marker id, byte offset,
encoded length (0 for the fixed zero-length markers) and typed body. -/
structure MarkerSegment where
  markerId : MarkerId
  offset : Nat
  length : Nat
  body : SegBody
deriving DecidableEq, Repr

/-- The decoded representation of a codestream (§3): ordered segment
sequence plus the flag describing how far parsing went. -/
structure Codestream where
  segments : List MarkerSegment
  headerOnly : Bool
deriving DecidableEq, Repr

/-- Hard decode errors of the codestream grammar (§4.4, §7). -/
inductive DecodeError where
  | missingSoc
  | invalidMarker (offset val : Nat)
  | truncated (offset : Nat)
  | badTilePart (sotOffset psot : Nat)
  | sodWithoutSot (offset : Nat)
  | outOfFuel
deriving DecidableEq, Repr

/-- Modelled from the spec: the fixed-zero-length marker set of §4.4
(SOC, EPH and the reserved markers 0xFF30-0xFF3F that carry no length
field); SOD and EOC are handled separately by the grammar loop. -/
def isZeroLen (v : Nat) : Bool :=
  v = 0xFF4F || v = 0xFF92 || (0xFF30 ≤ v && v ≤ 0xFF3F)

/-- Marker id recorded for a zero-length marker occurrence. -/
def zeroLenId (v : Nat) : MarkerId :=
  if v = 0xFF4F then .soc else if v = 0xFF92 then .eph else .unknown v

/-- Modelled from the spec: the scan used for `Psot == 0` (§4.4) -- the
tile-part's end is unknown until the next SOT (0xFF90) or EOC (0xFFD9)
marker is found by scanning forward byte by byte. -/
def scanNext (data : List Nat) : Nat → Nat → Option Nat
  | _, 0 => none
  | q, fuel + 1 =>
    match readU16 data q with
    | none => none
    | some v =>
      if v = 0xFF90 ∨ v = 0xFFD9 then some q else scanNext data (q + 1) fuel

/-- Modelled from the spec: the codestream grammar loop (§4.4).  The
repository's codestream module is missing from the source tree.  At each
marker position: a 2-byte value below 0xFF00 cannot be framed and is a
hard error identifying the offset and the value; EOC terminates; SOD stops
a header-only parse, while a full parse skips the tile-part using the
stashed Psot (scanning for the next SOT/EOC when Psot is 0, and raising a
hard error when the declared Psot points past the end of the range);
every other marker, recognized or not, honors its declared 2-byte length
field and parsing continues.  Exhaustion of the range before EOC is fatal
for a full parse (§7 TruncatedInput) and a normal stop for a header-only
parse. -/
def parseLoop (data : List Nat) (headerOnly : Bool) :
    Nat → Nat → Option (Nat × Nat) → Except DecodeError (List MarkerSegment)
  | 0, _, _ => .error .outOfFuel
  | fuel + 1, pos, lastSot =>
    match readU16 data pos with
    | none => if headerOnly then .ok [] else .error (.truncated pos)
    | some v =>
      if v < 0xFF00 then .error (.invalidMarker pos v)
      else if v = 0xFFD9 then .ok [⟨.eoc, pos, 0, .empty⟩]
      else if v = 0xFF93 then
        if headerOnly then .ok [⟨.sod, pos, 0, .empty⟩]
        else
          match lastSot with
          | none => .error (.sodWithoutSot pos)
          | some (so, ps) =>
            if ps = 0 then
              match scanNext data (pos + 2) (data.length + 1) with
              | none => .error (.truncated (pos + 2))
              | some q =>
                (parseLoop data headerOnly fuel q none).map
                  (⟨.sod, pos, 0, .empty⟩ :: ·)
            else if data.length < so + ps then .error (.badTilePart so ps)
            else
              (parseLoop data headerOnly fuel (so + ps) none).map
                (⟨.sod, pos, 0, .empty⟩ :: ·)
      else if v = 0xFF90 then
        match readU16 data (pos + 2), readU16 data (pos + 4),
              readU32 data (pos + 6), readU8 data (pos + 10),
              readU8 data (pos + 11) with
        | some len, some isot, some psot, some tpsot, some tnsot =>
          (parseLoop data headerOnly fuel (pos + 2 + max len 2)
              (some (pos, psot))).map
            (⟨.sot, pos, len, .sotBody isot psot tpsot tnsot⟩ :: ·)
        | _, _, _, _, _ => .error (.truncated pos)
      else if isZeroLen v then
        (parseLoop data headerOnly fuel (pos + 2) lastSot).map
          (⟨zeroLenId v, pos, 0, .empty⟩ :: ·)
      else
        match readU16 data (pos + 2) with
        | none => .error (.truncated (pos + 2))
        | some len =>
          (parseLoop data headerOnly fuel (pos + 2 + max len 2) lastSot).map
            (⟨markerIdOf v, pos, len,
              if v = 0xFF52 then
                .codBody (parseCOD ((data.drop (pos + 4)).take (len - 2)))
              else .generic⟩ :: ·)

/-- Modelled from the spec: `parse_codestream` (§4.4).  The first two
bytes must equal the SOC marker code 0xFF4F; failure there is a hard
parse error.  The SOC segment is recorded and the grammar loop is driven
over the rest of the range. -/
def parseCodestream (data : List Nat) (headerOnly : Bool) :
    Except DecodeError Codestream :=
  match readU16 data 0 with
  | none => .error (.truncated 0)
  | some v =>
    if v = 0xFF4F then
      (parseLoop data headerOnly (data.length + 2) 2 none).map
        (fun segs => ⟨⟨.soc, 0, 0, .empty⟩ :: segs, headerOnly⟩)
    else .error .missingSoc

/-- Structure of a decoded ICC profile creation date/time (§4.6). -/
structure IccDate where
  year : Nat
  month : Nat
  day : Nat
  hour : Nat
  minute : Nat
  second : Nat
deriving DecidableEq, Repr

/-- Modelled from the spec: display name of the ICC device class field
(§4.6); the tag 'scnr' denotes an input device profile. -/
def deviceClassName (t : Nat) : String :=
  if t = 0x73636E72 then "input device profile"
  else if t = 0x6D6E7472 then "display device profile"
  else if t = 0x70727472 then "output device profile"
  else if t = 0x6C696E6B then "device link profile"
  else "unrecognized"

/-- Modelled from the spec: display name of the ICC data colour space
field (§4.6). -/
def colorSpaceName (t : Nat) : String :=
  if t = 0x52474220 then "RGB"
  else if t = 0x47524159 then "gray"
  else if t = 0x58595A20 then "XYZ"
  else if t = 0x4C616220 then "Lab"
  else "unrecognized"

/-- Typed field mapping decoded from the fixed 128-byte ICC header (§4.6);
unresolved fields of a truncated profile are `none`, not an error. -/
structure IccProfile where
  size : Option Nat
  preferredCmm : Option Nat
  deviceClass : Option String
  colorSpace : Option String
  connectionSpace : Option Nat
  datetime : Option IccDate
  fileSignature : Option Nat
  creator : Option Nat
deriving DecidableEq, Repr

/-- Modelled from the spec: ICC Profile Decoder (§4.6) -- a pure function
over the fixed 128-byte ICC header layout: 4-byte size at offset 0,
preferred CMM type at 4, device class tag at 12, data colour space tag at
16, profile connection space at 20, creation date/time as six 2-byte
fields at 24, file signature at 36 and creator tag at 80.  The
repository's ICC module is missing from the source tree. -/
def parseICC (b : List Nat) : IccProfile :=
  { size := readU32 b 0
    preferredCmm := readU32 b 4
    deviceClass := (readU32 b 12).map deviceClassName
    colorSpace := (readU32 b 16).map colorSpaceName
    connectionSpace := readU32 b 20
    datetime :=
      match readU16 b 24, readU16 b 26, readU16 b 28, readU16 b 30,
            readU16 b 32, readU16 b 34 with
      | some y, some mo, some d, some h, some mi, some s =>
        some ⟨y, mo, d, h, mi, s⟩
      | _, _, _, _, _, _ => none
    fileSignature := readU32 b 36
    creator := readU32 b 80 }

/-- Decoded colour-specification box payload (§3): method, precedence,
approximation, enumerated colorspace (only when the method says so) and
the embedded ICC profile field mapping (only when the method indicates an
embedded profile). -/
structure ColrBox where
  method : Option Nat
  precedence : Option Nat
  approximation : Option Nat
  colorspace : Option Nat
  iccProfile : Option IccProfile
deriving DecidableEq, Repr

/-- Modelled from the spec: colour-specification box payload decoding
(§3, §4.6): one byte each of method, precedence, approximation; method 1
is an enumerated colorspace read as a 4-byte value, methods 2 (restricted
ICC) and 3 (any ICC) carry an embedded ICC profile starting right after
the three leading bytes. -/
def parseColr (b : List Nat) : ColrBox :=
  { method := readU8 b 0
    precedence := readU8 b 1
    approximation := readU8 b 2
    colorspace := if readU8 b 0 = some 1 then readU32 b 3 else none
    iccProfile :=
      if readU8 b 0 = some 2 ∨ readU8 b 0 = some 3 then
        some (parseICC (b.drop 3))
      else none }

/-- Recoverable diagnostics of the box tree grammar (§4.2, §7): malformed
boxes warn and parsing continues. -/
inductive BoxWarning where
  | badLength (offset typeCode : Nat)
  | truncatedHeader (offset : Nat)
  | trailing (offset : Nat)
  | fuelOut
deriving DecidableEq, Repr

mutual
/-- A node in the container tree (§3): 4-byte type code, absolute offset,
recorded total length and typed payload. -/
inductive Box where
  | mk (typeCode offset length : Nat) (payload : BoxPayload) : Box
/-- Typed payload variant of a box (§3, §4.2): recognized superboxes hold
children, the contiguous codestream box holds the outcome of the
codestream grammar over its payload range, the colour-specification box
holds its decoded payload, and everything else is kept as an unparsed
payload. -/
inductive BoxPayload where
  | raw : BoxPayload
  | group (children : List Box) : BoxPayload
  | cstream (result : Except DecodeError Codestream) : BoxPayload
  | colr (c : ColrBox) : BoxPayload
end

/-- Type code of a box. -/
def Box.typeCode : Box → Nat
  | .mk t _ _ _ => t

/-- Absolute byte offset of a box header start. -/
def Box.offset : Box → Nat
  | .mk _ o _ _ => o

/-- Recorded total length of a box. -/
def Box.length : Box → Nat
  | .mk _ _ l _ => l

/-- Payload of a box. -/
def Box.payload : Box → BoxPayload
  | .mk _ _ _ p => p

/-- Type codes of a superbox's children (empty for non-superboxes). -/
def Box.childIds (b : Box) : List Nat :=
  match b.payload with
  | .group cs => cs.map Box.typeCode
  | _ => []

/-- Marker ids of the successfully decoded codestream carried by a
contiguous-codestream box (empty otherwise). -/
def Box.csSegIds (b : Box) : List MarkerId :=
  match b.payload with
  | .cstream (.ok cs) => cs.segments.map MarkerSegment.markerId
  | _ => []

/-- Modelled from the spec: `parse_box_header` (§4.2).  Read the 4-byte
L field and the 4-byte type tag at `offset`; L = 1 requires reading an
additional 8-byte XL field and the total length is XL with a 16-byte
header; L = 0 means the box extends to the end of the enclosing range, so
the total length resolves to the range end minus the offset with an
8-byte header; any other L is the total length itself. -/
def parseBoxHeader (data : List Nat) (offset rangeEnd : Nat) :
    Option (Nat × Nat × Nat) :=
  match readU32 data offset, readU32 data (offset + 4) with
  | some l, some t =>
    if l = 1 then
      match readU64 data (offset + 8) with
      | some xl => some (t, xl, 16)
      | none => none
    else if l = 0 then some (t, rangeEnd - offset, 8)
    else some (t, l, 8)
  | _, _ => none

/-- Modelled from the spec: the box tree grammar (§4.2, §4.3, §7).  The
repository's box module is missing from the source tree.  Boxes are read
back to back over `[pos, stop)`; a declared length shorter than the
header or overrunning the enclosing range is recoverable: a warning is
recorded, the box's effective extent is clamped to the range and parsing
continues.  The jp2h superbox recurses over its payload; the jp2c box
hands its payload range to the codestream grammar (header-only, the lazy
default of the document model); the colr box decodes its payload;
everything else is kept unparsed.  The function never fails: it always
returns the boxes parsed so far plus the warning list. -/
def parseBoxes (data : List Nat) :
    Nat → Nat → Nat → List Box × List BoxWarning
  | 0, _, _ => ([], [.fuelOut])
  | fuel + 1, pos, stop =>
    if stop ≤ pos then ([], [])
    else if stop < pos + 8 then ([], [.trailing pos])
    else
      match parseBoxHeader data pos stop with
      | none => ([], [.truncatedHeader pos])
      | some (t, len, hdr) =>
        let bad : Bool := len < hdr || stop < pos + len
        let effLen := if bad then stop - pos else len
        let w0 : List BoxWarning := if bad then [.badLength pos t] else []
        let pw : BoxPayload × List BoxWarning :=
          if t = 0x6A703268 then
            let cw := parseBoxes data fuel (pos + hdr) (pos + effLen)
            (.group cw.1, cw.2)
          else if t = 0x6A703263 then
            (.cstream
              (parseCodestream
                ((data.drop (pos + hdr)).take (effLen - hdr)) true), [])
          else if t = 0x636F6C72 then
            (.colr (parseColr ((data.drop (pos + hdr)).take (effLen - hdr))),
             [])
          else (.raw, [])
        let rest := parseBoxes data fuel (pos + effLen) stop
        (Box.mk t pos len pw.1 :: rest.1, w0 ++ pw.2 ++ rest.2)

/-- The root object of the document model (§2, §3): it owns a box tree
(always present; empty for a raw codestream) and, for raw codestream
inputs, the bare codestream parse outcome. -/
structure Jp2kFile where
  box : List Box
  warnings : List BoxWarning
  rawCodestream : Option (Except DecodeError Codestream)

/-- Modelled from the spec: the top-level document model builder (§2,
§6).  An input beginning with the 2-byte SOC marker 0xFF4F is a raw
codestream with no box wrapper: the box list is present and empty.  An
input beginning with the 12-byte signature box is a box file and the box
tree grammar is driven over the whole range.  Anything else is rejected. -/
def parseFile (data : List Nat) : Except DecodeError Jp2kFile :=
  if readU16 data 0 = some 0xFF4F then
    .ok ⟨[], [], some (parseCodestream data true)⟩
  else if readU32 data 4 = some 0x6A502020 then
    let bw := parseBoxes data (data.length + 2) 0 data.length
    .ok ⟨bw.1, bw.2, none⟩
  else .error .missingSoc

/-- Four-character code of the signature box `jP  `. -/
def ccJP : Nat := 0x6A502020

/-- Four-character code of the file-type box `ftyp`. -/
def ccFtyp : Nat := 0x66747970

/-- Four-character code of the JP2 header superbox `jp2h`. -/
def ccJp2h : Nat := 0x6A703268

/-- Four-character code of the contiguous-codestream box `jp2c`. -/
def ccJp2c : Nat := 0x6A703263

/-- Four-character code of the image header box `ihdr`. -/
def ccIhdr : Nat := 0x69686472

/-- Four-character code of the colour-specification box `colr`. -/
def ccColr : Nat := 0x636F6C72

/-- A box file whose colr box declares a ridiculously incorrect length
(1000000 bytes, overrunning its jp2h parent): signature box, file-type
box, jp2h superbox holding ihdr plus the malformed colr, then a jp2c box
carrying a minimal codestream. -/
def brokenColrFile : List Nat :=
  [0, 0, 0, 12, 106, 80, 32, 32, 13, 10, 135, 10] ++
  [0, 0, 0, 20, 102, 116, 121, 112, 106, 112, 50, 32,
   0, 0, 0, 0, 106, 112, 50, 32] ++
  [0, 0, 0, 45, 106, 112, 50, 104] ++
  [0, 0, 0, 22, 105, 104, 100, 114,
   0, 0, 0, 152, 0, 0, 0, 203, 0, 3, 7, 7, 0, 0] ++
  [0, 15, 66, 64, 99, 111, 108, 114, 1, 0, 0, 0, 0, 0, 16] ++
  [0, 0, 0, 12, 106, 112, 50, 99, 255, 79, 255, 217]

/-- The fixed 128-byte ICC header of the test profile: size 546, CMM 0,
version 2.2.0, device class 'scnr', colour space 'RGB ', connection space
'XYZ ', creation date/time 2001-08-30 13:32:37, signature 'acsp',
platform 0, flags 1, manufacturer 'KODA', model 'ROMM', illuminant
(63190, 65536, 54061), creator 'JPEG'. -/
def iccHeaderBytes : List Nat :=
  [0, 0, 2, 34] ++ [0, 0, 0, 0] ++ [2, 32, 0, 0] ++
  [115, 99, 110, 114] ++ [82, 71, 66, 32] ++ [88, 89, 90, 32] ++
  [7, 209, 0, 8, 0, 30, 0, 13, 0, 32, 0, 37] ++
  [97, 99, 115, 112] ++ [0, 0, 0, 0] ++ [0, 0, 0, 1] ++
  [75, 79, 68, 65] ++ [82, 79, 77, 77] ++ List.replicate 12 0 ++
  [0, 0, 246, 214] ++ [0, 1, 0, 0] ++ [0, 0, 211, 45] ++
  [74, 80, 69, 71] ++ List.replicate 44 0

/-- Payload of a colr box with method 2 (restricted ICC), precedence 2,
approximation 1 and an embedded 546-byte ICC profile. -/
def colrIccPayload : List Nat :=
  [2, 2, 1] ++ iccHeaderBytes ++ List.replicate 418 0

/-- The 16-byte prefix SOC, SOT (length 10, tile 0, Psot 0, tile-part 0
of 1), SOD of the Psot-zero codestream family. -/
def psotZeroPre : List Nat :=
  [255, 79, 255, 144, 0, 10, 0, 0, 0, 0, 0, 0, 0, 1, 255, 147]

/-- A codestream whose single SOT declares Psot 0: SOC, SOT, SOD, then
`n` bytes of tile-part data (all zero) terminated by the EOC marker. -/
def psotZeroStream (n : Nat) : List Nat :=
  psotZeroPre ++ List.replicate n 0 ++ [255, 217]

/-- Helper: an `Except.map` producing a success exposes the underlying
success value. -/
theorem exceptMapOk {ε α β : Type} {f : α → β} {e : Except ε α} {b : β}
    (h : Except.map f e = .ok b) : ∃ a, e = .ok a ∧ b = f a := by
  cases e with
  | error e => simp [Except.map] at h
  | ok a =>
    refine ⟨a, rfl, ?_⟩
    simp [Except.map] at h
    exact h.symm

/-- Helper: consing onto a list preserves its last element. -/
theorem lastConsSome {α : Type} {l : List α} {s x : α}
    (h : l.getLast? = some s) : (x :: l).getLast? = some s := by
  cases l with
  | nil => simp at h
  | cons y t => rw [List.getLast?_cons_cons]; exact h

/-- Claim C2: if the 2-byte value read at a marker position cannot be
framed as a marker (it is below 0xFF00, hence neither in the known marker
table nor a length-prefixed reserved marker), the codestream grammar
fails with a hard decode error carrying the byte offset of the offending
value and the invalid marker value itself. -/
theorem invalidMarkerHardError (data : List Nat) (ho : Bool)
    (fuel pos : Nat) (ls : Option (Nat × Nat)) (v : Nat)
    (hv : readU16 data pos = some v) (hbad : v < 0xFF00) :
    parseLoop data ho (fuel + 1) pos ls = .error (.invalidMarker pos v) := by
  cases ls with
  | none =>
    rw [parseLoop.eq_2, hv]
    simp [hbad]
  | some p =>
    obtain ⟨so, ps⟩ := p
    rw [parseLoop.eq_3, hv]
    simp [hbad]

/-- Witness for claim C2: a codestream position holding the unframable
value 0x1234 makes the grammar fail with the offset and the value. -/
theorem invalidMarkerHardErrorWitness :
    readU16 [255, 79, 18, 52] 2 = some 0x1234 ∧ (0x1234 : Nat) < 0xFF00 ∧
      parseLoop [255, 79, 18, 52] false 4 2 none =
        .error (.invalidMarker 2 0x1234) :=
  ⟨by decide, by decide,
    invalidMarkerHardError [255, 79, 18, 52] false 3 2 none 0x1234
      (by decide) (by decide)⟩

/-- Claim C3: a box header whose 32-bit L field equals 1 is parsed by
reading the additional 8-byte XL field and the recorded length equals XL
(with a 16-byte header); a box header whose L field equals 0 extends to
the end of the enclosing range, so the recorded length equals the range
end minus the box offset (with an 8-byte header). -/
theorem boxHeaderVariants (data : List Nat) (off rangeEnd t xl : Nat) :
    (readU32 data off = some 1 → readU32 data (off + 4) = some t →
      readU64 data (off + 8) = some xl →
      parseBoxHeader data off rangeEnd = some (t, xl, 16)) ∧
    (readU32 data off = some 0 → readU32 data (off + 4) = some t →
      parseBoxHeader data off rangeEnd = some (t, rangeEnd - off, 8)) := by
  constructor
  · intro h1 ht hxl
    unfold parseBoxHeader
    rw [h1, ht, hxl]
    simp
  · intro h0 ht
    unfold parseBoxHeader
    rw [h0, ht]
    simp

/-- Witness for claim C3: a header with L = 1 and XL = 1133435 records
length 1133435, and a header with L = 0 inside a 1000-byte range starting
at offset 0 records length 1000. -/
theorem boxHeaderVariantsWitness :
    parseBoxHeader
        [0, 0, 0, 1, 106, 112, 50, 99, 0, 0, 0, 0, 0, 17, 75, 123]
        0 2000 = some (0x6A703263, 1133435, 16) ∧
      parseBoxHeader [0, 0, 0, 0, 117, 117, 105, 100] 0 1000 =
        some (0x75756964, 1000, 8) :=
  ⟨(boxHeaderVariants
      [0, 0, 0, 1, 106, 112, 50, 99, 0, 0, 0, 0, 0, 17, 75, 123]
      0 2000 0x6A703263 1133435).1 (by decide) (by decide) (by decide),
   (boxHeaderVariants [0, 0, 0, 0, 117, 117, 105, 100]
      0 1000 0x75756964 9).2 (by decide) (by decide)⟩

/-- Claim C5: during a full parse (header-only disabled), reaching the
SOD of a tile-part whose SOT declared a nonzero Psot that points past the
end of the available byte range is a hard decode error, not a successful
codestream. -/
theorem badTilePartHardError (data : List Nat) (fuel pos so ps : Nat)
    (hsod : readU16 data pos = some 0xFF93) (hps : 0 < ps)
    (hover : data.length < so + ps) :
    parseLoop data false (fuel + 1) pos (some (so, ps)) =
      .error (.badTilePart so ps) := by
  rw [parseLoop.eq_3, hsod]
  simp [Nat.pos_iff_ne_zero.mp hps, hover]

/-- Witness for claim C5: a SOT declaring Psot 2000000 in a 20-byte
codestream makes the full parse fail with a hard error. -/
theorem badTilePartHardErrorWitness :
    readU16 [255, 79, 255, 144, 0, 10, 0, 0, 0, 30, 132, 128, 0, 1,
        255, 147, 0, 0, 255, 217] 14 = some 0xFF93 ∧
      parseLoop [255, 79, 255, 144, 0, 10, 0, 0, 0, 30, 132, 128, 0, 1,
          255, 147, 0, 0, 255, 217] false 22 14 (some (2, 2000000)) =
        .error (.badTilePart 2 2000000) :=
  ⟨by decide,
   badTilePartHardError [255, 79, 255, 144, 0, 10, 0, 0, 0, 30, 132, 128,
      0, 1, 255, 147, 0, 0, 255, 217] 21 14 2 2000000
     (by decide) (by decide) (by decide)⟩

/-- Claim C8: every COD marker segment body that decodes successfully and
whose style byte has the explicit-precinct-sizes bit (bit 0) clear yields
the single implicit maximal precinct size (2^15, 2^15) = (32768, 32768),
regardless of the resolution-level count recorded in the same segment. -/
theorem codImplicitPrecinct (b : List Nat) (c : CodParams)
    (h : parseCOD b = some c) (hbit : c.scod.testBit 0 = false) :
    c.precinctSize = [(32768, 32768)] := by
  unfold parseCOD at h
  repeat' split at h
  any_goals simp at h
  all_goals subst h
  all_goals simp_all

/-- Witness for claim C8: the 10-byte COD body with style byte 0 and six
resolution levels decodes to the single precinct size (32768, 32768). -/
theorem codImplicitPrecinctWitness :
    parseCOD [0, 0, 0, 2, 1, 5, 4, 4, 0, 1] =
        some ⟨0, 0, 2, 1, 5, 4, 4, 0, 1, [(32768, 32768)]⟩ ∧
      (⟨0, 0, 2, 1, 5, 4, 4, 0, 1,
          [(32768, 32768)]⟩ : CodParams).precinctSize = [(32768, 32768)] :=
  ⟨by decide,
   codImplicitPrecinct [0, 0, 0, 2, 1, 5, 4, 4, 0, 1]
     ⟨0, 0, 2, 1, 5, 4, 4, 0, 1, [(32768, 32768)]⟩
     (by decide) (by decide)⟩

/-- Claim C10: every raw codestream input (one starting with the 2-byte
SOC marker, no box wrapper) yields a document model whose box list is
present and equal to the empty list. -/
theorem rawCodestreamEmptyBoxList (data : List Nat) (f : Jp2kFile)
    (hsoc : readU16 data 0 = some 0xFF4F)
    (h : parseFile data = .ok f) : f.box = [] := by
  unfold parseFile at h
  rw [hsoc] at h
  simp at h
  rw [← h]

/-- Witness for claim C10: the 4-byte raw codestream SOC-EOC parses to a
document model with an empty box list. -/
theorem rawCodestreamEmptyBoxListWitness :
    readU16 [255, 79, 255, 217] 0 = some 0xFF4F ∧
      (⟨[], [], some (parseCodestream [255, 79, 255, 217] true)⟩ :
        Jp2kFile).box = [] :=
  ⟨by decide,
   rawCodestreamEmptyBoxList [255, 79, 255, 217]
     ⟨[], [], some (parseCodestream [255, 79, 255, 217] true)⟩
     (by decide) (by rfl)⟩

/-- Claim C7: a reserved or unrecognized marker that carries the standard
2-byte length field never aborts codestream parsing: the grammar honors
the declared length, records a generic unknown segment carrying the raw
marker value and that declared length (0 for a zero-length reserved
segment), and hands control back to the loop at the next marker position,
so parsing continues toward EOC. -/
theorem unknownMarkerContinues (data : List Nat) (ho : Bool)
    (fuel pos : Nat) (ls : Option (Nat × Nat)) (v len : Nat)
    (hv : readU16 data pos = some v)
    (h1 : ¬ v < 0xFF00) (h2 : v ≠ 0xFFD9) (h3 : v ≠ 0xFF93)
    (h4 : v ≠ 0xFF90) (h5 : isZeroLen v = false)
    (h6 : markerIdOf v = .unknown v)
    (hlen : readU16 data (pos + 2) = some len) :
    parseLoop data ho (fuel + 1) pos ls =
      (parseLoop data ho fuel (pos + 2 + max len 2) ls).map
        ((⟨.unknown v, pos, len, .generic⟩ : MarkerSegment) :: ·) := by
  have h7 : v ≠ 0xFF52 := by
    intro e
    rw [e] at h6
    simp [markerIdOf] at h6
  cases ls with
  | none =>
    rw [parseLoop.eq_2, hv]
    simp [h1, h2, h3, h4, h5, hlen, h6, h7]
  | some p =>
    obtain ⟨so, ps⟩ := p
    rw [parseLoop.eq_3, hv]
    simp [h1, h2, h3, h4, h5, hlen, h6, h7]

/-- Witness for claim C7: a zero-length reserved segment with marker value
0xFF00 and declared length 0 is recorded as an unknown segment of length 0
and the loop continues right after its length field; the surrounding full
parse runs through to EOC. -/
theorem unknownMarkerContinuesWitness :
    readU16 [255, 79, 255, 0, 0, 0, 255, 217] 2 = some 0xFF00 ∧
      parseLoop [255, 79, 255, 0, 0, 0, 255, 217] false (9 + 1) 2 none =
        (parseLoop [255, 79, 255, 0, 0, 0, 255, 217] false 9
            (2 + 2 + max 0 2) none).map
          ((⟨.unknown 0xFF00, 2, 0, .generic⟩ : MarkerSegment) :: ·) ∧
      parseCodestream [255, 79, 255, 0, 0, 0, 255, 217] false =
        .ok ⟨[⟨.soc, 0, 0, .empty⟩, ⟨.unknown 0xFF00, 2, 0, .generic⟩,
              ⟨.eoc, 6, 0, .empty⟩], false⟩ :=
  ⟨by decide,
   unknownMarkerContinues [255, 79, 255, 0, 0, 0, 255, 217] false 9 2 none
     0xFF00 0 (by decide) (by decide) (by decide) (by decide) (by decide)
     (by decide) (by decide) (by decide),
   by rfl⟩

set_option maxRecDepth 8000 in
/-- Claim C9: parsing a colr box payload with method 2 (restricted ICC)
and the embedded 546-byte ICC profile of the conformance fixture yields a
profile field mapping with Size 546, Device Class "input device profile",
Color Space "RGB" and creation Datetime 2001-08-30 13:32:37, each decoded
from the fixed 128-byte ICC header layout. -/
theorem colrIccProfileFields :
    (parseColr colrIccPayload).method = some 2 ∧
      (parseColr colrIccPayload).iccProfile.map IccProfile.size =
        some (some 546) ∧
      (parseColr colrIccPayload).iccProfile.map IccProfile.deviceClass =
        some (some "input device profile") ∧
      (parseColr colrIccPayload).iccProfile.map IccProfile.colorSpace =
        some (some "RGB") ∧
      (parseColr colrIccPayload).iccProfile.map IccProfile.datetime =
        some (some ⟨2001, 8, 30, 13, 32, 37⟩) := by
  refine ⟨?_, ?_, ?_, ?_, ?_⟩ <;> rfl

set_option maxRecDepth 8000 in
/-- Claim C6: a box whose declared length is incorrect (the colr box of
`brokenColrFile` declares 1000000 bytes and overruns its jp2h parent) is
recoverable, not fatal: the box tree grammar records a warning naming the
malformed box, clamps it to the enclosing range, and keeps parsing, so
the whole remaining tree is still produced -- all four top-level boxes,
both jp2h children including the malformed colr itself, and the embedded
codestream of the subsequent jp2c box. -/
theorem brokenBoxLengthRecovers :
    (parseFile brokenColrFile).map (fun f => f.box.map Box.typeCode) =
        .ok [ccJP, ccFtyp, ccJp2h, ccJp2c] ∧
      (parseFile brokenColrFile).map (fun f => f.warnings) =
        .ok [.badLength 62 ccColr] ∧
      (parseFile brokenColrFile).map
          (fun f => (f.box.drop 2).head?.map Box.childIds) =
        .ok (some [ccIhdr, ccColr]) ∧
      (parseFile brokenColrFile).map
          (fun f => (f.box.drop 3).head?.map Box.csSegIds) =
        .ok (some [.soc, .eoc]) := by
  refine ⟨?_, ?_, ?_, ?_⟩ <;> rfl

/-- Helper: a full parse of the grammar loop only succeeds by consuming
EOC, so the segment list it returns ends with an EOC segment. -/
theorem parseLoopFullLastEoc (data : List Nat) :
    ∀ fuel pos ls segs, parseLoop data false fuel pos ls = .ok segs →
      ∃ s, segs.getLast? = some s ∧ s.markerId = .eoc := by
  intro fuel
  induction fuel with
  | zero =>
    intro pos ls segs h
    rw [parseLoop.eq_1] at h
    simp at h
  | succ fuel ih =>
    intro pos ls segs h
    have step :
        ∀ (seg : MarkerSegment) (pos2 : Nat) (ls2 : Option (Nat × Nat)),
          (parseLoop data false fuel pos2 ls2).map (seg :: ·) = .ok segs →
          ∃ s, segs.getLast? = some s ∧ s.markerId = .eoc := by
      intro seg pos2 ls2 he
      obtain ⟨rest, hrest, hf⟩ := exceptMapOk he
      subst hf
      obtain ⟨s, hl, hm⟩ := ih pos2 ls2 rest hrest
      exact ⟨s, lastConsSome hl, hm⟩
    cases ls with
    | none =>
      rw [parseLoop.eq_2] at h
      repeat' split at h
      all_goals
        first
        | exact Except.noConfusion h
        | exact Bool.noConfusion ‹false = true›
        | exact step _ _ _ h
        | (cases h
           exact ⟨_, List.getLast?_singleton _, rfl⟩)
    | some p =>
      obtain ⟨so, ps⟩ := p
      rw [parseLoop.eq_3] at h
      repeat' split at h
      all_goals
        first
        | exact Except.noConfusion h
        | exact Bool.noConfusion ‹false = true›
        | exact step _ _ _ h
        | (cases h
           exact ⟨_, List.getLast?_singleton _, rfl⟩)

/-- Claim C1: every codestream parsed successfully by the codestream
grammar, in header-only or full mode, has SOC as the marker id of its
first segment; and every successful full parse (header-only disabled)
ends with a segment whose marker id is EOC. -/
theorem codestreamSocFirstEocLast (data : List Nat) (ho : Bool)
    (cs : Codestream) (h : parseCodestream data ho = .ok cs) :
    (∃ s rest, cs.segments = s :: rest ∧ s.markerId = .soc) ∧
      (ho = false →
        ∃ s, cs.segments.getLast? = some s ∧ s.markerId = .eoc) := by
  unfold parseCodestream at h
  split at h
  · exact Except.noConfusion h
  · split at h
    · obtain ⟨segs, hsegs, hcs⟩ := exceptMapOk h
      subst hcs
      constructor
      · exact ⟨_, segs, rfl, rfl⟩
      · intro hho
        subst hho
        obtain ⟨s, hl, hm⟩ :=
          parseLoopFullLastEoc data (data.length + 2) 2 none segs hsegs
        exact ⟨s, lastConsSome hl, hm⟩
    · exact Except.noConfusion h

/-- Witness for claim C1: the minimal full codestream SOC-EOC parses with
SOC first and EOC last. -/
theorem codestreamSocFirstEocLastWitness :
    (∃ s rest,
        (Codestream.mk [⟨.soc, 0, 0, .empty⟩, ⟨.eoc, 2, 0, .empty⟩]
            false).segments = s :: rest ∧ s.markerId = .soc) ∧
      (false = false →
        ∃ s,
          (Codestream.mk [⟨.soc, 0, 0, .empty⟩, ⟨.eoc, 2, 0, .empty⟩]
              false).segments.getLast? = some s ∧ s.markerId = .eoc) :=
  codestreamSocFirstEocLast [255, 79, 255, 217] false
    ⟨[⟨.soc, 0, 0, .empty⟩, ⟨.eoc, 2, 0, .empty⟩], false⟩ (by rfl)

/-- Helper: the Psot-zero scan finds the first SOT/EOC marker position:
if every position strictly before `q0` holds a non-SOT, non-EOC 2-byte
value and `q0` holds EOC, the scan started at or before `q0` returns
`q0`. -/
theorem scanFound (data : List Nat) :
    ∀ fuel q q0, q ≤ q0 → q0 - q < fuel →
      (∀ r, q ≤ r → r < q0 → ∃ v, readU16 data r = some v ∧
        ¬(v = 0xFF90 ∨ v = 0xFFD9)) →
      readU16 data q0 = some 0xFFD9 →
      scanNext data q fuel = some q0 := by
  intro fuel
  induction fuel with
  | zero =>
    intro q q0 h1 h2 _ _
    omega
  | succ fuel ih =>
    intro q q0 hle hf hmid hq0
    by_cases hq : q = q0
    · subst hq
      rw [scanNext.eq_2, hq0]
      simp
    · have hlt : q < q0 := Nat.lt_of_le_of_ne hle hq
      obtain ⟨v, hv, hnv⟩ := hmid q le_rfl hlt
      rw [scanNext.eq_2, hv]
      simp only [hnv, if_false]
      exact ih (q + 1) q0 hlt (by omega)
        (fun r h1 h2 => hmid r (by omega) h2) hq0

/-- Helper: length of the Psot-zero family stream. -/
theorem psotZeroStreamLen (n : Nat) :
    (psotZeroStream n).length = n + 18 := by
  simp [psotZeroStream, psotZeroPre]

/-- Helper: reassociated view of the Psot-zero family stream. -/
theorem psotZeroStreamAssoc (n : Nat) :
    psotZeroStream n =
      psotZeroPre ++ (List.replicate n 0 ++ [255, 217]) := by
  simp [psotZeroStream, List.append_assoc]

/-- Helper: byte reads inside the left part of an append. -/
theorem readU8Left (l1 l2 : List Nat) (i : Nat) (h : i < l1.length) :
    readU8 (l1 ++ l2) i = readU8 l1 i := by
  unfold readU8
  rw [List.getElem?_append_left h]

/-- Helper: 2-byte reads inside the left part of an append. -/
theorem readU16Left (l1 l2 : List Nat) (i : Nat) (h : i + 1 < l1.length) :
    readU16 (l1 ++ l2) i = readU16 l1 i := by
  unfold readU16
  rw [readU8Left l1 l2 i (by omega), readU8Left l1 l2 (i + 1) h]

/-- Helper: 4-byte reads inside the left part of an append. -/
theorem readU32Left (l1 l2 : List Nat) (i : Nat) (h : i + 3 < l1.length) :
    readU32 (l1 ++ l2) i = readU32 l1 i := by
  unfold readU32
  rw [readU16Left l1 l2 i (by omega), readU16Left l1 l2 (i + 2) (by omega)]

/-- Helper: the tile-part data bytes of the family are all zero. -/
theorem psotZeroByteMid (n j : Nat) (h1 : 16 ≤ j) (h2 : j < 16 + n) :
    readU8 (psotZeroStream n) j = some 0 := by
  rw [psotZeroStreamAssoc]
  unfold readU8
  rw [List.getElem?_append_right (by have h16 : psotZeroPre.length = 16 := rfl; omega)]
  have hp : psotZeroPre.length = 16 := by rfl
  rw [hp, List.getElem?_append_left
      (by simp only [List.length_replicate]; omega),
    List.getElem?_replicate_of_lt (by omega)]
  rfl

/-- Helper: first EOC byte of the family. -/
theorem psotZeroByteFF (n : Nat) :
    readU8 (psotZeroStream n) (16 + n) = some 255 := by
  rw [psotZeroStreamAssoc]
  unfold readU8
  rw [List.getElem?_append_right (by have h16 : psotZeroPre.length = 16 := rfl; omega)]
  have hp : psotZeroPre.length = 16 := by rfl
  rw [hp, show 16 + n - 16 = n from by omega,
    List.getElem?_append_right (by simp)]
  simp

/-- Helper: second EOC byte of the family. -/
theorem psotZeroByteD9 (n : Nat) :
    readU8 (psotZeroStream n) (17 + n) = some 217 := by
  rw [psotZeroStreamAssoc]
  unfold readU8
  rw [List.getElem?_append_right (by have h16 : psotZeroPre.length = 16 := rfl; omega)]
  have hp : psotZeroPre.length = 16 := by rfl
  rw [hp, show 17 + n - 16 = n + 1 from by omega,
    List.getElem?_append_right (by simp)]
  simp

/-- Helper: the EOC marker of the family sits right after the tile-part
data. -/
theorem psotZeroEoc (n : Nat) :
    readU16 (psotZeroStream n) (16 + n) = some 0xFFD9 := by
  unfold readU16
  rw [psotZeroByteFF n, show 16 + n + 1 = 17 + n from by omega,
    psotZeroByteD9 n]

/-- Helper: no position inside the tile-part data of the family reads as
SOT or EOC. -/
theorem psotZeroMid (n r : Nat) (h1 : 16 ≤ r) (h2 : r < 16 + n) :
    ∃ v, readU16 (psotZeroStream n) r = some v ∧
      ¬(v = 0xFF90 ∨ v = 0xFFD9) := by
  by_cases hr : r + 1 < 16 + n
  · refine ⟨0, ?_, by decide⟩
    unfold readU16
    rw [psotZeroByteMid n r h1 h2, psotZeroByteMid n (r + 1) (by omega) hr]
  · have hr1 : r + 1 = 16 + n := by omega
    refine ⟨255, ?_, by decide⟩
    unfold readU16
    rw [psotZeroByteMid n r h1 h2, hr1, psotZeroByteFF n]

/-- Helper: the family starts with SOC. -/
theorem psotZeroSoc (n : Nat) :
    readU16 (psotZeroStream n) 0 = some 0xFF4F := by
  rw [psotZeroStreamAssoc, readU16Left _ _ _
    (by have h16 : psotZeroPre.length = 16 := rfl; omega)]
  decide

/-- Helper: the SOT marker of the family. -/
theorem psotZeroSot (n : Nat) :
    readU16 (psotZeroStream n) 2 = some 0xFF90 := by
  rw [psotZeroStreamAssoc, readU16Left _ _ _
    (by have h16 : psotZeroPre.length = 16 := rfl; omega)]
  decide

/-- Helper: the SOT length field of the family. -/
theorem psotZeroLsot (n : Nat) :
    readU16 (psotZeroStream n) 4 = some 10 := by
  rw [psotZeroStreamAssoc, readU16Left _ _ _
    (by have h16 : psotZeroPre.length = 16 := rfl; omega)]
  decide

/-- Helper: the tile index of the family SOT. -/
theorem psotZeroIsot (n : Nat) :
    readU16 (psotZeroStream n) 6 = some 0 := by
  rw [psotZeroStreamAssoc, readU16Left _ _ _
    (by have h16 : psotZeroPre.length = 16 := rfl; omega)]
  decide

/-- Helper: the family SOT declares Psot 0. -/
theorem psotZeroPsot (n : Nat) :
    readU32 (psotZeroStream n) 8 = some 0 := by
  rw [psotZeroStreamAssoc, readU32Left _ _ _
    (by have h16 : psotZeroPre.length = 16 := rfl; omega)]
  decide

/-- Helper: the tile-part index of the family SOT. -/
theorem psotZeroTpsot (n : Nat) :
    readU8 (psotZeroStream n) 12 = some 0 := by
  rw [psotZeroStreamAssoc, readU8Left _ _ _
    (by have h16 : psotZeroPre.length = 16 := rfl; omega)]
  decide

/-- Helper: the tile-part count of the family SOT. -/
theorem psotZeroTnsot (n : Nat) :
    readU8 (psotZeroStream n) 13 = some 1 := by
  rw [psotZeroStreamAssoc, readU8Left _ _ _
    (by have h16 : psotZeroPre.length = 16 := rfl; omega)]
  decide

/-- Helper: the SOD marker of the family. -/
theorem psotZeroSod (n : Nat) :
    readU16 (psotZeroStream n) 14 = some 0xFF93 := by
  rw [psotZeroStreamAssoc, readU16Left _ _ _
    (by have h16 : psotZeroPre.length = 16 := rfl; omega)]
  decide

/-- Helper: the grammar loop at the family EOC position records EOC and
stops. -/
theorem psotZeroEocStep (n : Nat) :
    parseLoop (psotZeroStream n) false (n + 18) (16 + n) none =
      .ok [⟨.eoc, 16 + n, 0, .empty⟩] := by
  rw [show n + 18 = (n + 17) + 1 from by omega, parseLoop.eq_2,
    psotZeroEoc n]
  simp

/-- Helper: the Psot-zero scan over the family tile-part data of any
size finds the EOC position. -/
theorem psotZeroScan (n : Nat) :
    scanNext (psotZeroStream n) 16 ((psotZeroStream n).length + 1) =
      some (16 + n) := by
  apply scanFound
  · omega
  · rw [psotZeroStreamLen]
    omega
  · exact fun r h1 h2 => psotZeroMid n r h1 h2
  · exact psotZeroEoc n

/-- Helper: at the family SOD, the full-mode loop special-cases the
stashed Psot 0 by scanning to the EOC position instead of trusting a
numeric skip. -/
theorem psotZeroSodStep (n : Nat) :
    parseLoop (psotZeroStream n) false (n + 19) 14 (some (2, 0)) =
      .ok [⟨.sod, 14, 0, .empty⟩, ⟨.eoc, 16 + n, 0, .empty⟩] := by
  rw [show n + 19 = (n + 18) + 1 from by omega, parseLoop.eq_3,
    psotZeroSod n]
  simp only [show ¬((0xFF93 : Nat) < 0xFF00) from by decide,
    show (0xFF93 : Nat) ≠ 0xFFD9 from by decide, if_false, if_neg,
    if_pos rfl]
  simp [show (14 : Nat) + 2 = 16 from rfl, psotZeroScan n,
    psotZeroEocStep n, Except.map]

/-- Helper: the loop decodes the family SOT, stashes (offset, Psot) and
continues with the tile-part header. -/
theorem psotZeroSotStep (n : Nat) :
    parseLoop (psotZeroStream n) false (n + 20) 2 none =
      .ok [⟨.sot, 2, 10, .sotBody 0 0 0 1⟩, ⟨.sod, 14, 0, .empty⟩,
           ⟨.eoc, 16 + n, 0, .empty⟩] := by
  rw [show n + 20 = (n + 19) + 1 from by omega, parseLoop.eq_2,
    psotZeroSot n]
  simp [psotZeroLsot n, psotZeroIsot n, psotZeroPsot n, psotZeroTpsot n,
    psotZeroTnsot n, psotZeroSodStep n, Except.map]

/-- Claim C4: an SOT marker segment with Psot 0 is legal: for every
tile-part data size `n`, full parsing (header-only disabled) of the
`psotZeroStream n` codestream succeeds, the tile-part is taken to extend
to the next SOT/EOC marker found by scanning, and the resulting segment
sequence ends with SOT, SOD, EOC in that order (the decoded SOT body
records Psot 0). -/
theorem psotZeroFull (n : Nat) :
    parseCodestream (psotZeroStream n) false =
      .ok ⟨[⟨.soc, 0, 0, .empty⟩, ⟨.sot, 2, 10, .sotBody 0 0 0 1⟩,
            ⟨.sod, 14, 0, .empty⟩, ⟨.eoc, 16 + n, 0, .empty⟩], false⟩ := by
  unfold parseCodestream
  rw [psotZeroSoc n, psotZeroStreamLen n,
    show n + 18 + 2 = n + 20 from by omega]
  simp [psotZeroSotStep n, Except.map]
